import Mathlib

/-!
Shallow embedding of the order-management backend (Express + Mongoose server,
`server.js`): the Product/Order data model, the order-creation route
`POST /api/orders`, the order-number pre-save hook, the status-update route
`PUT /api/orders/:id/status`, and the product-update route (price field).

Modelling choices, faithful to the JavaScript source:
* JavaScript `Number` fields (prices, quantities, totals) are modelled as
  `Int`: the order workflow only adds and multiplies these values, so the
  embedding is parametric in the numeric carrier, and `Int` keeps every
  concrete run kernel-computable.  Quantities arrive from JSON and may be
  negative, which matters below.
* Mongo documents live in in-memory lists; `findById` is `List.find?` on the
  stored id.  The unique index on `orderNumber` is modelled as a membership
  check at save time.
* JavaScript falsiness of a string field (`!customer`, `!item.productId`,
  `!status`) is modelled as equality with `""`; falsiness of a numeric field
  (`!item.quantity`) as equality with `0`.
-/

namespace Rugas

/-- Schema `productSchema`: name, category, description, price, stock, isActive
(pictures omitted: never read by the order workflow), plus the Mongo `_id`. -/
structure Product where
  id : String
  name : String
  category : String
  description : String
  price : Int
  stock : Int
  isActive : Bool
deriving Repr, DecidableEq

/-- One entry of `orderSchema.products`: a product reference, the ordered
quantity and the unit-price snapshot copied from the Product at creation. -/
structure OrderItem where
  product : String
  quantity : Int
  price : Int
deriving Repr, DecidableEq

/-- Schema `orderSchema`: order number, customer reference, line items, total,
status, order date (epoch milliseconds) and notes, plus the Mongo `_id`. -/
structure Order where
  id : String
  orderNumber : String
  customer : String
  products : List OrderItem
  totalAmount : Int
  status : String
  orderDate : Nat
  notes : String
deriving Repr, DecidableEq

/-- One `{productId, quantity}` pair of the `POST /api/orders` body. -/
structure ReqItem where
  productId : String
  quantity : Int
deriving Repr, DecidableEq

/-- The `POST /api/orders` body: `{customer, products, notes}`.  `products`
is `none` when the field is absent or not an array. -/
structure CreateOrderRequest where
  customer : String
  products : Option (List ReqItem)
  notes : String
deriving Repr, DecidableEq

/-- The persistent state: the `products` and `orders` collections. -/
structure DB where
  products : List Product
  orders : List Order
deriving Repr, DecidableEq

/-- An HTTP route outcome: a success payload with its status code, or an
error status code with the `{error: ...}` message. -/
inductive ApiResult (α : Type) where
  | ok (code : Nat) (val : α)
  | err (code : Nat) (msg : String)
deriving Repr, DecidableEq

/-- Lookup `Product.findById(id)` on the products collection. -/
def findProductById (catalog : List Product) (pid : String) : Option Product :=
  catalog.find? (fun p => p.id = pid)

/-- Lookup `Order.findById(id)` on the orders collection. -/
def findOrderById (db : DB) (oid : String) : Option Order :=
  db.orders.find? (fun o => o.id = oid)

/-- JavaScript `String.prototype.padStart(targetLength, padChar)`: returns the
string unchanged when it is already at least `targetLength` long, otherwise
prepends copies of the pad character up to that length. -/
def padStart (s : String) (targetLength : Nat) (padChar : Char) : String :=
  if targetLength ≤ s.length then s
  else String.mk (List.replicate (targetLength - s.length) padChar) ++ s

/-- The order number built by the `orderSchema.pre('save')` hook:
`` `ORD-${Date.now()}-${(count + 1).toString().padStart(4, '0')}` `` where
`count` is the number of already-stored orders. -/
def generateOrderNumber (now : Nat) (count : Nat) : String :=
  "ORD-" ++ Nat.repr now ++ "-" ++ padStart (Nat.repr (count + 1)) 4 '0'

/-- Modelled from the spec: the Order Store (MongoDB) is an external
collaborator; the message text of its duplicate-key error is
driver-generated.  Only its identity, not its wording, matters here. -/
def dupKeyMessage : String := "E11000 duplicate key error"

/-- The `orderSchema.pre('save')` hook: when the document has no order
number, assign one from `Date.now()` and the current `countDocuments()`. -/
def applyOrderNumberHook (db : DB) (o : Order) (now : Nat) : Order :=
  if o.orderNumber = "" then
    { o with orderNumber := generateOrderNumber now db.orders.length }
  else o

/-- The insert behind `save()`: it succeeds unless the unique index on
`orderNumber` is violated, in which case Mongo raises a duplicate-key error. -/
def insertOrder (db : DB) (o2 : Order) : Except String (Order × DB) :=
  if db.orders.any (fun e => e.orderNumber = o2.orderNumber) then
    Except.error dupKeyMessage
  else
    Except.ok (o2, { db with orders := db.orders ++ [o2] })

/-- Saving, `order.save()`: the pre-save hook runs, then the document is inserted. -/
def saveOrder (db : DB) (o : Order) (now : Nat) : Except String (Order × DB) :=
  insertOrder db (applyOrderNumberHook db o now)

/-- The `for (const item of products)` loop of `POST /api/orders`: per item,
reject a falsy `productId` or `quantity`, resolve the product by id (failing
on a miss), snapshot its price, and accumulate the running total. -/
def processItems (catalog : List Product) (items : List ReqItem)
    (orderProducts : List OrderItem) (totalAmount : Int) :
    Except String (List OrderItem × Int) :=
  match items with
  | [] => Except.ok (orderProducts, totalAmount)
  | item :: rest =>
    if item.productId = "" ∨ item.quantity = 0 then
      Except.error "Each product must have productId and quantity"
    else
      match findProductById catalog item.productId with
      | none => Except.error ("Product not found: " ++ item.productId)
      | some product =>
        processItems catalog rest
          (orderProducts ++ [{ product := product.id, quantity := item.quantity,
                               price := product.price }])
          (totalAmount + product.price * item.quantity)

/-- Route `POST /api/orders`: validate the body shape, resolve and price the line
items, build the order with `status = 'placed'`, and save it (the pre-save
hook assigns the order number).  A save failure surfaces through the
route's catch as a 500 with the error message.  `now` is `Date.now()` and
`newId` the Mongo id given to the new document. -/
def createOrder (db : DB) (req : CreateOrderRequest) (now : Nat)
    (newId : String) : ApiResult Order × DB :=
  match req.products with
  | none => (ApiResult.err 400 "Customer and products are required", db)
  | some items =>
    if req.customer = "" ∨ items = [] then
      (ApiResult.err 400 "Customer and products are required", db)
    else
      match processItems db.products items [] 0 with
      | Except.error msg => (ApiResult.err 400 msg, db)
      | Except.ok (orderProducts, totalAmount) =>
        let order : Order :=
          { id := newId, orderNumber := "", customer := req.customer,
            products := orderProducts, totalAmount := totalAmount,
            status := "placed", orderDate := now, notes := req.notes }
        match saveOrder db order now with
        | Except.error msg => (ApiResult.err 500 msg, db)
        | Except.ok (saved, db2) => (ApiResult.ok 201 saved, db2)

/-- The `validStatuses` list of `PUT /api/orders/:id/status`. -/
def validStatuses : List String := ["placed", "shipped", "delivered", "cancelled"]

/-- Route `PUT /api/orders/:id/status`: reject a falsy status, then a status
outside `validStatuses`; otherwise `findByIdAndUpdate` stores the new status
on the matching order and returns the updated document, or 404 when no
order has that id. -/
def updateOrderStatus (db : DB) (oid : String) (status : String) :
    ApiResult Order × DB :=
  if status = "" then (ApiResult.err 400 "Status is required", db)
  else if ¬ (status ∈ validStatuses) then
    (ApiResult.err 400
      ("Invalid status. Must be one of: " ++ String.intercalate ", " validStatuses), db)
  else
    match db.orders.find? (fun o => o.id = oid) with
    | none => (ApiResult.err 404 "Order not found", db)
    | some o =>
      (ApiResult.ok 200 { o with status := status },
       { db with orders :=
           db.orders.map (fun e => if e.id = oid then { e with status := status } else e) })

/-- Route `PUT /api/products/:id` restricted to the price field:
`findByIdAndUpdate` rewrites the matching product's price. -/
def updateProductPrice (db : DB) (pid : String) (newPrice : Int) : DB :=
  { db with products :=
      db.products.map (fun p => if p.id = pid then { p with price := newPrice } else p) }

/-- Clears the `isActive` flag of every stored product. -/
def deactivateAllProducts (db : DB) : DB :=
  { db with products := db.products.map (fun p => { p with isActive := false }) }

/-- The sum, over a list of line items, of quantity times unit-price snapshot. -/
def itemsTotal (l : List OrderItem) : Int :=
  (l.map (fun it => it.quantity * it.price)).sum

/-- Concrete catalog entry for the test scenario (`P1`, price 10). -/
def sampleP1 : Product :=
  { id := "P1", name := "Widget", category := "Gadgets",
    description := "A widget", price := 10, stock := 5, isActive := true }

/-- Concrete catalog entry for the test scenario (`P2`, price 5). -/
def sampleP2 : Product :=
  { id := "P2", name := "Sprocket", category := "Gadgets",
    description := "A sprocket", price := 5, stock := 5, isActive := true }

/-- A store holding the two sample products and no orders. -/
def sampleDB : DB := { products := [sampleP1, sampleP2], orders := [] }

/-- The spec scenario's creation request: 2 of `P1` and 3 of `P2`. -/
def sampleRequest : CreateOrderRequest :=
  { customer := "C1",
    products := some [{ productId := "P1", quantity := 2 },
                      { productId := "P2", quantity := 3 }],
    notes := "" }

/-- The order the sample request produces at `Date.now() = 1700`. -/
def sampleOrder : Order :=
  { id := "o1", orderNumber := "ORD-1700-0001", customer := "C1",
    products := [{ product := "P1", quantity := 2, price := 10 },
                 { product := "P2", quantity := 3, price := 5 }],
    totalAmount := 35, status := "placed", orderDate := 1700, notes := "" }

/-- The sample store after the sample order is created. -/
def sampleDB2 : DB := { products := [sampleP1, sampleP2], orders := [sampleOrder] }

/-- A store holding one delivered order and no products. -/
def deliveredDB : DB :=
  { products := [],
    orders := [{ id := "o1", orderNumber := "ORD-1-0001", customer := "C1",
                 products := [{ product := "P1", quantity := 1, price := 10 }],
                 totalAmount := 10, status := "delivered", orderDate := 1,
                 notes := "gift" }] }

/-- A store whose only product is deactivated (`isActive = false`). -/
def inactiveDB : DB :=
  { products := [{ id := "P9", name := "Retired", category := "Old",
                   description := "retired product", price := 7, stock := 0,
                   isActive := false }],
    orders := [] }

/-- A store whose one stored order already carries the very order number the
hook would generate at `Date.now() = 5` (count 1, so suffix `0002`). -/
def collisionDB : DB :=
  { products := [sampleP1, sampleP2],
    orders := [{ id := "o0", orderNumber := "ORD-5-0002", customer := "C1",
                 products := [], totalAmount := 0, status := "placed",
                 orderDate := 0, notes := "" }] }

theorem itemsTotal_nil : itemsTotal [] = 0 := rfl

theorem itemsTotal_cons (it : OrderItem) (l : List OrderItem) :
    itemsTotal (it :: l) = it.quantity * it.price + itemsTotal l := by
  simp [itemsTotal]

/-- On an order without a preset number, the hook assigns the generated one. -/
theorem applyOrderNumberHook_fresh (db : DB) (o : Order) (now : Nat)
    (h : o.orderNumber = "") :
    applyOrderNumberHook db o now =
      { o with orderNumber := generateOrderNumber now db.orders.length } := by
  unfold applyOrderNumberHook
  rw [if_pos h]

/-- Inversion of a successful insert: the stored document is returned as-is,
no stored order shares its number, and the collection gained exactly it. -/
theorem insertOrder_ok_inv (db : DB) (o2 saved : Order) (db2 : DB)
    (h : insertOrder db o2 = Except.ok (saved, db2)) :
    saved = o2 ∧
    db.orders.any (fun e => e.orderNumber = o2.orderNumber) = false ∧
    db2 = { db with orders := db.orders ++ [o2] } := by
  unfold insertOrder at h
  by_cases hdup : db.orders.any (fun e => e.orderNumber = o2.orderNumber) = true
  · rw [if_pos hdup] at h; exact absurd h (by simp)
  · rw [if_neg hdup] at h
    simp only [Except.ok.injEq, Prod.mk.injEq] at h
    exact ⟨h.1.symm, by simp at hdup ⊢; exact hdup, h.2.symm⟩

/-- A failing insert is a duplicate-key failure: some stored order already
carries the number. -/
theorem insertOrder_error_inv (db : DB) (o2 : Order) (msg : String)
    (h : insertOrder db o2 = Except.error msg) :
    msg = dupKeyMessage ∧
    db.orders.any (fun e => e.orderNumber = o2.orderNumber) = true := by
  unfold insertOrder at h
  by_cases hdup : db.orders.any (fun e => e.orderNumber = o2.orderNumber) = true
  · rw [if_pos hdup] at h
    simp only [Except.error.injEq] at h
    exact ⟨h.symm, hdup⟩
  · rw [if_neg hdup] at h; exact absurd h (by simp)

/-- A product returned by `findProductById` carries the queried id, so
re-querying with its stored id returns the same product. -/
theorem findProductById_self {catalog : List Product} {pid : String} {p : Product}
    (h : findProductById catalog pid = some p) :
    p.id = pid ∧ findProductById catalog p.id = some p := by
  have hpid : p.id = pid := by
    have := List.find?_some h
    exact of_decide_eq_true this
  exact ⟨hpid, by rw [hpid]; exact h⟩

/-- Successful item processing: the produced line items extend the
accumulator, the produced total extends the accumulated total by the sum of
quantity times price over the new items, and every new item's price is the
price of the product its stored reference resolves to. -/
theorem processItems_ok_spec (catalog : List Product) :
    ∀ (items : List ReqItem) (acc : List OrderItem) (total : Int)
      (ops : List OrderItem) (tot : Int),
    processItems catalog items acc total = Except.ok (ops, tot) →
    ∃ newOps, ops = acc ++ newOps ∧ tot = total + itemsTotal newOps ∧
      ∀ it ∈ newOps, ∃ p, findProductById catalog it.product = some p ∧
        it.price = p.price := by
  intro items
  induction items with
  | nil =>
    intro acc total ops tot h
    simp only [processItems, Except.ok.injEq, Prod.mk.injEq] at h
    refine ⟨[], ?_, ?_, by simp⟩
    · simp [h.1]
    · simp [itemsTotal, h.2]
  | cons item rest ih =>
    intro acc total ops tot h
    unfold processItems at h
    by_cases hval : item.productId = "" ∨ item.quantity = 0
    · simp [hval] at h
    · rw [if_neg hval] at h
      cases hp : findProductById catalog item.productId with
      | none => rw [hp] at h; exact absurd h (by simp)
      | some p =>
        rw [hp] at h
        obtain ⟨newOps, hops, htot, hsnap⟩ := ih _ _ _ _ h
        refine ⟨{ product := p.id, quantity := item.quantity,
                  price := p.price } :: newOps, ?_, ?_, ?_⟩
        · rw [hops]; simp
        · rw [htot, itemsTotal_cons]; ring
        · intro it hit
          rcases List.mem_cons.mp hit with rfl | hit
          · exact ⟨p, (findProductById_self hp).2, rfl⟩
          · exact hsnap it hit

/-- Inversion of a successful `POST /api/orders`: the body passed the shape
check, item processing succeeded, the created order carries the processed
items, total, status `'placed'`, the hook-generated order number, the
request's customer and notes, and the store gained exactly that order. -/
theorem createOrder_ok_inv (db : DB) (req : CreateOrderRequest) (now : Nat)
    (newId : String) (o : Order) (db2 : DB)
    (h : createOrder db req now newId = (ApiResult.ok 201 o, db2)) :
    ∃ items ops tot, req.products = some items ∧
      ¬(req.customer = "" ∨ items = []) ∧
      processItems db.products items [] 0 = Except.ok (ops, tot) ∧
      o = { id := newId, orderNumber := generateOrderNumber now db.orders.length,
            customer := req.customer, products := ops, totalAmount := tot,
            status := "placed", orderDate := now, notes := req.notes } ∧
      db2 = { db with orders := db.orders ++ [o] } := by
  obtain ⟨customer, oproducts, rnotes⟩ := req
  cases oproducts with
  | none => exact absurd h (by simp [createOrder])
  | some items =>
    simp only [createOrder] at h
    by_cases hshape : customer = "" ∨ items = []
    · rw [if_pos hshape] at h; exact absurd h (by simp)
    · rw [if_neg hshape] at h
      cases hpi : processItems db.products items [] 0 with
      | error msg => simp only [hpi] at h; exact absurd h (by simp)
      | ok pair =>
        obtain ⟨ops, tot⟩ := pair
        simp only [hpi] at h
        cases hs : saveOrder db
            { id := newId, orderNumber := "", customer := customer,
              products := ops, totalAmount := tot, status := "placed",
              orderDate := now, notes := rnotes } now with
        | error msg => simp only [hs] at h; exact absurd h (by simp)
        | ok pair2 =>
          obtain ⟨saved, dbS⟩ := pair2
          simp only [hs] at h
          simp only [Prod.mk.injEq, ApiResult.ok.injEq] at h
          obtain ⟨⟨_, hsaved⟩, hdbS⟩ := h
          unfold saveOrder at hs
          rw [applyOrderNumberHook_fresh db _ now rfl] at hs
          obtain ⟨hsv, _, hins⟩ := insertOrder_ok_inv _ _ _ _ hs
          subst hsaved hdbS hsv hins
          exact ⟨items, ops, tot, rfl, hshape, hpi, rfl, rfl⟩

/-- C1: for every successfully created order, the stored `totalAmount` is
exactly the sum over all line items of quantity times the unit-price
snapshot, the stored status is `'placed'`, and each line item's `price`
equals the price of the Product its reference resolved to at creation. -/
theorem createOrder_total_status_snapshot (db : DB) (req : CreateOrderRequest)
    (now : Nat) (newId : String) (o : Order) (db2 : DB)
    (h : createOrder db req now newId = (ApiResult.ok 201 o, db2)) :
    o.totalAmount = itemsTotal o.products ∧
    o.status = "placed" ∧
    ∀ it ∈ o.products, ∃ p, findProductById db.products it.product = some p ∧
      it.price = p.price := by
  obtain ⟨items, ops, tot, hpr, hshape, hpi, ho, hdb⟩ :=
    createOrder_ok_inv db req now newId o db2 h
  obtain ⟨newOps, hops, htot, hsnap⟩ :=
    processItems_ok_spec db.products items [] 0 ops tot hpi
  simp only [List.nil_append] at hops
  subst ho hops
  refine ⟨?_, rfl, ?_⟩
  · rw [htot]; ring
  · intro it hit
    exact hsnap it hit

/-- Witness for C1 at a concrete run: 2 of `P1` (price 10) and 3 of
`P2` (price 5) give total 35, status `'placed'`, snapshot prices. -/
theorem createOrder_total_status_snapshot_witness :
    sampleOrder.totalAmount = itemsTotal sampleOrder.products ∧
    sampleOrder.status = "placed" ∧
    ∀ it ∈ sampleOrder.products, ∃ p,
      findProductById sampleDB.products it.product = some p ∧
      it.price = p.price :=
  createOrder_total_status_snapshot sampleDB sampleRequest 1700 "o1"
    sampleOrder sampleDB2 (by decide)

/-- When every item passes the shape check but some item's product id does
not resolve, the processing loop fails with the not-found message naming
one of the unresolvable ids. -/
theorem processItems_err_of_missing (catalog : List Product) :
    ∀ (items : List ReqItem) (acc : List OrderItem) (total : Int),
    (∀ it ∈ items, it.productId ≠ "" ∧ it.quantity ≠ 0) →
    (∃ it ∈ items, findProductById catalog it.productId = none) →
    ∃ pid, (∃ it ∈ items, it.productId = pid ∧
        findProductById catalog pid = none) ∧
      processItems catalog items acc total =
        Except.error ("Product not found: " ++ pid) := by
  intro items
  induction items with
  | nil => intro acc total _ hmiss; simp at hmiss
  | cons item rest ih =>
    intro acc total hshape hmiss
    have hval : ¬(item.productId = "" ∨ item.quantity = 0) := by
      have := hshape item (List.mem_cons_self item rest)
      push_neg
      exact this
    cases hp : findProductById catalog item.productId with
    | none =>
      refine ⟨item.productId,
        ⟨item, List.mem_cons_self item rest, rfl, hp⟩, ?_⟩
      unfold processItems
      rw [if_neg hval]
      simp only [hp]
    | some p =>
      have hmiss2 : ∃ it ∈ rest, findProductById catalog it.productId = none := by
        obtain ⟨it, hit, hnone⟩ := hmiss
        rcases List.mem_cons.mp hit with rfl | hit
        · rw [hp] at hnone; exact absurd hnone (by simp)
        · exact ⟨it, hit, hnone⟩
      obtain ⟨pid, ⟨it, hit, hpid, hnone⟩, herr⟩ :=
        ih _ _ (fun it h => hshape it (List.mem_cons_of_mem _ h)) hmiss2
      refine ⟨pid, ⟨it, List.mem_cons_of_mem _ hit, hpid, hnone⟩, ?_⟩
      unfold processItems
      rw [if_neg hval]
      simp only [hp]
      exact herr

/-- C2: a creation request whose line items are shape-valid but contain a
product id that does not resolve fails with 400
`Product not found: <id>` naming such an id, and the store is unchanged
(no partial order is persisted). -/
theorem createOrder_missing_product_aborts (db : DB) (customer : String)
    (items : List ReqItem) (rnotes : String) (now : Nat) (newId : String)
    (hc : customer ≠ "") (hne : items ≠ [])
    (hshape : ∀ it ∈ items, it.productId ≠ "" ∧ it.quantity ≠ 0)
    (hmiss : ∃ it ∈ items, findProductById db.products it.productId = none) :
    ∃ pid, (∃ it ∈ items, it.productId = pid ∧
        findProductById db.products pid = none) ∧
      createOrder db
          { customer := customer, products := some items, notes := rnotes }
          now newId =
        (ApiResult.err 400 ("Product not found: " ++ pid), db) := by
  obtain ⟨pid, hw, hperr⟩ :=
    processItems_err_of_missing db.products items [] 0 hshape hmiss
  refine ⟨pid, hw, ?_⟩
  simp only [createOrder]
  rw [if_neg (by push_neg; exact ⟨hc, hne⟩)]
  simp only [hperr]

/-- Witness for C2: one item referencing the absent product `PX`; creation
fails with `Product not found: PX` and the store is unchanged. -/
theorem createOrder_missing_product_aborts_witness :
    ∃ pid, (∃ it ∈ [({ productId := "PX", quantity := 1 } : ReqItem)],
        it.productId = pid ∧ findProductById sampleDB.products pid = none) ∧
      createOrder sampleDB
          { customer := "C1",
            products := some [{ productId := "PX", quantity := 1 }],
            notes := "" }
          0 "o1" =
        (ApiResult.err 400 ("Product not found: " ++ pid), sampleDB) :=
  createOrder_missing_product_aborts sampleDB "C1"
    [{ productId := "PX", quantity := 1 }] "" 0 "o1"
    (by decide) (by decide) (by decide)
    ⟨{ productId := "PX", quantity := 1 }, by decide, by decide⟩

/-- C3: for every stored order and every requested target status among the
four recognized values, the update succeeds and stores the target status,
whatever the current status is — including out of the terminal states
`delivered` and `cancelled`; no transition rule is enforced. -/
theorem updateOrderStatus_accepts_any_valid (db : DB) (oid status : String)
    (o : Order) (hs : status ∈ validStatuses)
    (hfind : findOrderById db oid = some o) :
    updateOrderStatus db oid status =
      (ApiResult.ok 200 { o with status := status },
       { db with
           orders := db.orders.map
             (fun e => if e.id = oid then { e with status := status } else e) }) := by
  have hne : status ≠ "" := by
    simp only [validStatuses, List.mem_cons, List.not_mem_nil, or_false] at hs
    rcases hs with rfl | rfl | rfl | rfl <;> decide
  unfold updateOrderStatus
  rw [if_neg hne, if_neg (not_not_intro hs)]
  unfold findOrderById at hfind
  simp only [hfind]

/-- Witness for C3: a `delivered` (terminal) order is moved back to
`placed` and the update succeeds. -/
theorem updateOrderStatus_accepts_any_valid_witness :
    updateOrderStatus deliveredDB "o1" "placed" =
      (ApiResult.ok 200
        { id := "o1", orderNumber := "ORD-1-0001", customer := "C1",
          products := [{ product := "P1", quantity := 1, price := 10 }],
          totalAmount := 10, status := "placed", orderDate := 1,
          notes := "gift" },
       { products := [],
         orders := [{ id := "o1", orderNumber := "ORD-1-0001",
                      customer := "C1",
                      products := [{ product := "P1", quantity := 1,
                                     price := 10 }],
                      totalAmount := 10, status := "placed", orderDate := 1,
                      notes := "gift" }] }) :=
  updateOrderStatus_accepts_any_valid deliveredDB "o1" "placed"
    { id := "o1", orderNumber := "ORD-1-0001", customer := "C1",
      products := [{ product := "P1", quantity := 1, price := 10 }],
      totalAmount := 10, status := "delivered", orderDate := 1,
      notes := "gift" }
    (by decide) (by decide)

/-- C4 counterexample: a request whose hook-generated number collides with
a stored order's number fails at once through the route's catch — an HTTP
500 carrying the store's duplicate-key message, with the store unchanged —
instead of retrying number generation and raising a `ConflictError`. -/
theorem createOrder_duplicate_key_counterexample :
    createOrder collisionDB
        { customer := "C1",
          products := some [{ productId := "P1", quantity := 1 }],
          notes := "" }
        5 "o1" =
      (ApiResult.err 500 dupKeyMessage, collisionDB) := by decide

/-- C4 amended: when the generated order number collides with a stored
order's number, creation fails immediately with a 500 carrying the store's
duplicate-key message and the store keeps its previous orders; no retry of
number generation happens and no `ConflictError` is produced. -/
theorem createOrder_duplicate_number_fails_500 (db : DB) (customer : String)
    (items : List ReqItem) (rnotes : String) (now : Nat) (newId : String)
    (ops : List OrderItem) (tot : Int)
    (hc : customer ≠ "") (hne : items ≠ [])
    (hpi : processItems db.products items [] 0 = Except.ok (ops, tot))
    (hdup : db.orders.any
        (fun e => e.orderNumber = generateOrderNumber now db.orders.length) =
      true) :
    createOrder db
        { customer := customer, products := some items, notes := rnotes }
        now newId =
      (ApiResult.err 500 dupKeyMessage, db) := by
  simp only [createOrder]
  rw [if_neg (by push_neg; exact ⟨hc, hne⟩)]
  simp only [hpi]
  cases hs : saveOrder db
      { id := newId, orderNumber := "", customer := customer,
        products := ops, totalAmount := tot, status := "placed",
        orderDate := now, notes := rnotes } now with
  | error msg =>
    simp only [hs]
    unfold saveOrder at hs
    rw [applyOrderNumberHook_fresh db _ now rfl] at hs
    obtain ⟨hmsg, _⟩ := insertOrder_error_inv _ _ _ hs
    rw [hmsg]
  | ok pair =>
    exfalso
    obtain ⟨saved, dbS⟩ := pair
    unfold saveOrder at hs
    rw [applyOrderNumberHook_fresh db _ now rfl] at hs
    obtain ⟨_, hfalse, _⟩ := insertOrder_ok_inv _ _ _ _ hs
    dsimp only at hfalse
    rw [hdup] at hfalse
    exact Bool.noConfusion hfalse

/-- Witness for the amended C4 at the collision store. -/
theorem createOrder_duplicate_number_fails_500_witness :
    createOrder collisionDB
        { customer := "C1",
          products := some [{ productId := "P1", quantity := 1 }],
          notes := "" }
        5 "o1" =
      (ApiResult.err 500 dupKeyMessage, collisionDB) :=
  createOrder_duplicate_number_fails_500 collisionDB "C1"
    [{ productId := "P1", quantity := 1 }] "" 5 "o1"
    [{ product := "P1", quantity := 1, price := 10 }] 10
    (by decide) (by decide) rfl (by decide)

/-- The function `padStart` pads to the target length but never truncates: the result's
length is the maximum of the target and the input length. -/
theorem padStart_length (s : String) (n : Nat) (c : Char) :
    (padStart s n c).length = max n s.length := by
  unfold padStart
  split
  · rename_i h
    exact (Nat.max_eq_right h).symm
  · rename_i h
    rw [String.length_append]
    have h2 : (String.mk (List.replicate (n - s.length) c)).length =
        n - s.length := List.length_replicate _ _
    omega

/-- Decimal renderings of numbers below 10000 take at most 4 characters. -/
theorem repr_length_le_four {n : Nat} (h : n < 10000) :
    (Nat.repr n).length ≤ 4 := by
  have h4 : (10 : ℕ) ^ 4 = 10000 := by norm_num
  exact Nat.repr_length n 4 (by decide) (by rw [h4]; exact h)

/-- C5 counterexample: with 9999 pre-existing orders the generated suffix
is `10000`, five characters — the number is not of the form
`ORD-<millis>-<exactly four digits>`. -/
theorem generateOrderNumber_pad_counterexample :
    generateOrderNumber 0 9999 = "ORD-0-10000" ∧
    (generateOrderNumber 0 9999).length ≠ "ORD-0-".length + 4 := by decide

/-- C5 amended: a created order's number is `ORD-`, the epoch milliseconds,
a hyphen, and the pre-existing order count plus one zero-padded to a
minimum of 4 digits: at least 4 characters always, exactly 4 whenever
count + 1 is below 10000. -/
theorem createOrder_orderNumber_format (db : DB) (req : CreateOrderRequest)
    (now : Nat) (newId : String) (o : Order) (db2 : DB)
    (h : createOrder db req now newId = (ApiResult.ok 201 o, db2)) :
    o.orderNumber =
      "ORD-" ++ Nat.repr now ++ "-" ++
        padStart (Nat.repr (db.orders.length + 1)) 4 '0' ∧
    4 ≤ (padStart (Nat.repr (db.orders.length + 1)) 4 '0').length ∧
    (db.orders.length + 1 < 10000 →
      (padStart (Nat.repr (db.orders.length + 1)) 4 '0').length = 4) := by
  obtain ⟨items, ops, tot, hpr, hshape, hpi, ho, hdb⟩ :=
    createOrder_ok_inv db req now newId o db2 h
  subst ho
  refine ⟨rfl, ?_, ?_⟩
  · rw [padStart_length]
    exact Nat.le_max_left _ _
  · intro hlt
    rw [padStart_length]
    have := repr_length_le_four hlt
    omega

/-- Witness for the amended C5 at the sample creation (count 0, so the
suffix is `0001`, exactly four digits). -/
theorem createOrder_orderNumber_format_witness :
    sampleOrder.orderNumber =
      "ORD-" ++ Nat.repr 1700 ++ "-" ++
        padStart (Nat.repr (sampleDB.orders.length + 1)) 4 '0' ∧
    4 ≤ (padStart (Nat.repr (sampleDB.orders.length + 1)) 4 '0').length ∧
    (sampleDB.orders.length + 1 < 10000 →
      (padStart (Nat.repr (sampleDB.orders.length + 1)) 4 '0').length = 4) :=
  createOrder_orderNumber_format sampleDB sampleRequest 1700 "o1"
    sampleOrder sampleDB2 (by decide)

/-- C6 counterexample: with the customer identifier empty, creation fails
with the single combined message, not with `customer required`. -/
theorem createOrder_required_message_counterexample :
    createOrder sampleDB
        { customer := "",
          products := some [{ productId := "P1", quantity := 1 }],
          notes := "" }
        0 "o1" =
      (ApiResult.err 400 "Customer and products are required", sampleDB) ∧
    "Customer and products are required" ≠ "customer required" := by decide

/-- C6 amended: a missing/empty customer and a missing or empty line-item
sequence are rejected by one combined check with the single message
`Customer and products are required`; the two causes are not given
distinct messages. -/
theorem createOrder_combined_required_message (db : DB)
    (req : CreateOrderRequest) (now : Nat) (newId : String)
    (h : req.customer = "" ∨ req.products = none ∨ req.products = some []) :
    createOrder db req now newId =
      (ApiResult.err 400 "Customer and products are required", db) := by
  obtain ⟨customer, oproducts, rnotes⟩ := req
  cases oproducts with
  | none => rfl
  | some items =>
    have h2 : customer = "" ∨ items = [] := by
      rcases h with h | h | h
      · exact Or.inl h
      · exact absurd h (by simp)
      · simp only [Option.some.injEq] at h
        exact Or.inr h
    simp only [createOrder]
    rw [if_pos h2]

/-- Witness for the amended C6: empty customer yields the combined message. -/
theorem createOrder_combined_required_message_witness :
    createOrder sampleDB
        { customer := "",
          products := some [{ productId := "P1", quantity := 1 }],
          notes := "" }
        0 "o1" =
      (ApiResult.err 400 "Customer and products are required", sampleDB) :=
  createOrder_combined_required_message sampleDB
    { customer := "",
      products := some [{ productId := "P1", quantity := 1 }],
      notes := "" }
    0 "o1" (Or.inl rfl)

/-- C7 counterexample: a line item with quantity `-1` (not an integer ≥ 1)
passes the falsiness check, and the order is created — with a negative
quantity and a negative total — instead of failing validation. -/
theorem createOrder_negative_quantity_counterexample :
    createOrder sampleDB
        { customer := "C1",
          products := some [{ productId := "P1", quantity := -1 }],
          notes := "" }
        0 "o1" =
      (ApiResult.ok 201
        { id := "o1", orderNumber := "ORD-0-0001", customer := "C1",
          products := [{ product := "P1", quantity := -1, price := 10 }],
          totalAmount := -10, status := "placed", orderDate := 0,
          notes := "" },
       { products := [sampleP1, sampleP2],
         orders := [{ id := "o1", orderNumber := "ORD-0-0001",
                      customer := "C1",
                      products := [{ product := "P1", quantity := -1,
                                     price := 10 }],
                      totalAmount := -10, status := "placed", orderDate := 0,
                      notes := "" }] }) := by decide

/-- With every earlier item shape-valid and resolvable, the processing loop
stops at the first item with an empty product id or zero quantity. -/
theorem processItems_error_at_falsy (catalog : List Product) :
    ∀ (pre : List ReqItem) (bad : ReqItem) (post : List ReqItem)
      (acc : List OrderItem) (total : Int),
    (∀ it ∈ pre, (it.productId ≠ "" ∧ it.quantity ≠ 0) ∧
        (findProductById catalog it.productId).isSome = true) →
    (bad.productId = "" ∨ bad.quantity = 0) →
    processItems catalog (pre ++ bad :: post) acc total =
      Except.error "Each product must have productId and quantity" := by
  intro pre
  induction pre with
  | nil =>
    intro bad post acc total _ hbad
    rw [List.nil_append]
    unfold processItems
    rw [if_pos hbad]
  | cons p ps ih =>
    intro bad post acc total hpre hbad
    obtain ⟨⟨hpid, hqty⟩, hsome⟩ := hpre p (List.mem_cons_self p ps)
    have hval : ¬(p.productId = "" ∨ p.quantity = 0) := by
      push_neg; exact ⟨hpid, hqty⟩
    cases hf : findProductById catalog p.productId with
    | none => rw [hf] at hsome; exact absurd hsome (by simp)
    | some prod =>
      rw [List.cons_append]
      unfold processItems
      rw [if_neg hval]
      simp only [hf]
      exact ih bad post _ _ (fun it h => hpre it (List.mem_cons_of_mem _ h)) hbad

/-- C7 amended: creation fails with 400
`Each product must have productId and quantity` (and no order is persisted)
exactly at the first line item with an empty product id or a zero quantity,
every earlier item being shape-valid and resolvable; negative quantities
are not rejected and flow into the stored order and total. -/
theorem createOrder_falsy_item_rejected (db : DB) (customer : String)
    (pre : List ReqItem) (bad : ReqItem) (post : List ReqItem)
    (rnotes : String) (now : Nat) (newId : String)
    (hc : customer ≠ "")
    (hpre : ∀ it ∈ pre, (it.productId ≠ "" ∧ it.quantity ≠ 0) ∧
        (findProductById db.products it.productId).isSome = true)
    (hbad : bad.productId = "" ∨ bad.quantity = 0) :
    createOrder db
        { customer := customer, products := some (pre ++ bad :: post),
          notes := rnotes }
        now newId =
      (ApiResult.err 400 "Each product must have productId and quantity",
       db) := by
  have hne : pre ++ bad :: post ≠ [] := by simp
  simp only [createOrder]
  rw [if_neg (by push_neg; exact ⟨hc, hne⟩)]
  simp only [processItems_error_at_falsy db.products pre bad post [] 0 hpre hbad]

/-- Witness for the amended C7: a zero quantity on the first item is
rejected with the shape message and the store is unchanged. -/
theorem createOrder_falsy_item_rejected_witness :
    createOrder sampleDB
        { customer := "C1",
          products := some [{ productId := "P1", quantity := 0 }],
          notes := "" }
        0 "o1" =
      (ApiResult.err 400 "Each product must have productId and quantity",
       sampleDB) :=
  createOrder_falsy_item_rejected sampleDB "C1" []
    { productId := "P1", quantity := 0 } [] "" 0 "o1"
    (by decide) (by simp) (Or.inr rfl)

/-- C8 counterexample: an empty-string target status is not one of the four
recognized values, yet the failure message is `Status is required`, which
is not the message enumerating the valid values. -/
theorem updateOrderStatus_empty_status_counterexample :
    updateOrderStatus { products := [], orders := [] } "o1" "" =
      (ApiResult.err 400 "Status is required",
       { products := [], orders := [] }) ∧
    "Status is required" ≠
      "Invalid status. Must be one of: " ++
        String.intercalate ", " validStatuses := by decide

/-- C8 amended: a missing/empty target fails with `Status is required`; a
non-empty target outside the four recognized values fails with the message
enumerating them; both before any lookup or write; a recognized target on
an absent order id fails 404 with no order modified. -/
theorem updateOrderStatus_error_paths (db : DB) (oid status : String) :
    (status = "" →
      updateOrderStatus db oid status =
        (ApiResult.err 400 "Status is required", db)) ∧
    (status ≠ "" → status ∉ validStatuses →
      updateOrderStatus db oid status =
        (ApiResult.err 400
          ("Invalid status. Must be one of: " ++
            String.intercalate ", " validStatuses), db)) ∧
    (status ∈ validStatuses → findOrderById db oid = none →
      updateOrderStatus db oid status =
        (ApiResult.err 404 "Order not found", db)) := by
  refine ⟨?_, ?_, ?_⟩
  · intro h1
    unfold updateOrderStatus
    rw [if_pos h1]
  · intro h1 h2
    unfold updateOrderStatus
    rw [if_neg h1, if_pos h2]
  · intro h1 h2
    have hne : status ≠ "" := by
      simp only [validStatuses, List.mem_cons, List.not_mem_nil,
        or_false] at h1
      rcases h1 with rfl | rfl | rfl | rfl <;> decide
    unfold updateOrderStatus
    rw [if_neg hne, if_neg (not_not_intro h1)]
    unfold findOrderById at h2
    simp only [h2]

/-- Witness for the amended C8: the three error paths on concrete stores. -/
theorem updateOrderStatus_error_paths_witness :
    updateOrderStatus deliveredDB "o1" "" =
      (ApiResult.err 400 "Status is required", deliveredDB) ∧
    updateOrderStatus deliveredDB "o1" "refunded" =
      (ApiResult.err 400
        ("Invalid status. Must be one of: " ++
          String.intercalate ", " validStatuses), deliveredDB) ∧
    updateOrderStatus deliveredDB "oX" "shipped" =
      (ApiResult.err 404 "Order not found", deliveredDB) :=
  ⟨(updateOrderStatus_error_paths deliveredDB "o1" "").1 rfl,
   (updateOrderStatus_error_paths deliveredDB "o1" "refunded").2.1
     (by decide) (by decide),
   (updateOrderStatus_error_paths deliveredDB "oX" "shipped").2.2
     (by decide) (by decide)⟩

/-- Inversion of a successful status update: the order existed, the
returned document is it with only the status replaced, and the store maps
only the matching order to its restatused copy. -/
theorem updateOrderStatus_ok_inv (db : DB) (oid status : String) (o : Order)
    (db2 : DB)
    (h : updateOrderStatus db oid status = (ApiResult.ok 200 o, db2)) :
    ∃ orig, findOrderById db oid = some orig ∧
      o = { orig with status := status } ∧
      db2 = { db with
        orders := db.orders.map
          (fun e => if e.id = oid then { e with status := status } else e) } := by
  unfold updateOrderStatus at h
  by_cases h1 : status = ""
  · rw [if_pos h1] at h; exact absurd h (by simp)
  · rw [if_neg h1] at h
    by_cases h2 : status ∈ validStatuses
    · rw [if_neg (not_not_intro h2)] at h
      cases hf : db.orders.find? (fun x => x.id = oid) with
      | none => simp only [hf] at h; exact absurd h (by simp)
      | some orig =>
        simp only [hf] at h
        simp only [Prod.mk.injEq, ApiResult.ok.injEq] at h
        obtain ⟨⟨_, ho⟩, hdb⟩ := h
        exact ⟨orig, hf, ho.symm, hdb.symm⟩
    · rw [if_pos h2] at h; exact absurd h (by simp)

/-- C9: a successful status update changes only the status field — order
number, customer, line items, total, order date and notes are unchanged,
the catalog is untouched, and only the matching order is rewritten; and a
later change to a product's catalog price leaves every stored order (hence
every snapshotted line-item price and total) unchanged. -/
theorem updateOrderStatus_frame_and_snapshot :
    (∀ (db : DB) (oid status : String) (o : Order) (db2 : DB),
      updateOrderStatus db oid status = (ApiResult.ok 200 o, db2) →
      ∃ orig, findOrderById db oid = some orig ∧
        o.orderNumber = orig.orderNumber ∧ o.customer = orig.customer ∧
        o.products = orig.products ∧ o.totalAmount = orig.totalAmount ∧
        o.orderDate = orig.orderDate ∧ o.notes = orig.notes ∧
        o.status = status ∧ db2.products = db.products ∧
        db2.orders = db.orders.map
          (fun e => if e.id = oid then { e with status := status } else e)) ∧
    (∀ (db : DB) (pid : String) (newPrice : Int),
      (updateProductPrice db pid newPrice).orders = db.orders) := by
  constructor
  · intro db oid status o db2 h
    obtain ⟨orig, hf, ho, hdb⟩ := updateOrderStatus_ok_inv db oid status o db2 h
    subst ho
    subst hdb
    exact ⟨orig, hf, rfl, rfl, rfl, rfl, rfl, rfl, rfl, rfl, rfl⟩
  · intro db pid newPrice
    rfl

/-- Witness for C9: shipping the stored delivered order keeps every other
field, and a price rewrite of `P1` leaves the sample store's orders as
they were. -/
theorem updateOrderStatus_frame_and_snapshot_witness :
    (∃ orig, findOrderById deliveredDB "o1" = some orig ∧
      ({ id := "o1", orderNumber := "ORD-1-0001", customer := "C1",
         products := [{ product := "P1", quantity := 1, price := 10 }],
         totalAmount := 10, status := "shipped", orderDate := 1,
         notes := "gift" } : Order).orderNumber = orig.orderNumber ∧
      ({ id := "o1", orderNumber := "ORD-1-0001", customer := "C1",
         products := [{ product := "P1", quantity := 1, price := 10 }],
         totalAmount := 10, status := "shipped", orderDate := 1,
         notes := "gift" } : Order).customer = orig.customer ∧
      ({ id := "o1", orderNumber := "ORD-1-0001", customer := "C1",
         products := [{ product := "P1", quantity := 1, price := 10 }],
         totalAmount := 10, status := "shipped", orderDate := 1,
         notes := "gift" } : Order).products = orig.products ∧
      ({ id := "o1", orderNumber := "ORD-1-0001", customer := "C1",
         products := [{ product := "P1", quantity := 1, price := 10 }],
         totalAmount := 10, status := "shipped", orderDate := 1,
         notes := "gift" } : Order).totalAmount = orig.totalAmount ∧
      ({ id := "o1", orderNumber := "ORD-1-0001", customer := "C1",
         products := [{ product := "P1", quantity := 1, price := 10 }],
         totalAmount := 10, status := "shipped", orderDate := 1,
         notes := "gift" } : Order).orderDate = orig.orderDate ∧
      ({ id := "o1", orderNumber := "ORD-1-0001", customer := "C1",
         products := [{ product := "P1", quantity := 1, price := 10 }],
         totalAmount := 10, status := "shipped", orderDate := 1,
         notes := "gift" } : Order).notes = orig.notes ∧
      ({ id := "o1", orderNumber := "ORD-1-0001", customer := "C1",
         products := [{ product := "P1", quantity := 1, price := 10 }],
         totalAmount := 10, status := "shipped", orderDate := 1,
         notes := "gift" } : Order).status = "shipped" ∧
      ({ products := [],
         orders := [{ id := "o1", orderNumber := "ORD-1-0001",
                      customer := "C1",
                      products := [{ product := "P1", quantity := 1,
                                     price := 10 }],
                      totalAmount := 10, status := "shipped", orderDate := 1,
                      notes := "gift" }] } : DB).products =
        deliveredDB.products ∧
      ({ products := [],
         orders := [{ id := "o1", orderNumber := "ORD-1-0001",
                      customer := "C1",
                      products := [{ product := "P1", quantity := 1,
                                     price := 10 }],
                      totalAmount := 10, status := "shipped", orderDate := 1,
                      notes := "gift" }] } : DB).orders =
        deliveredDB.orders.map
          (fun e => if e.id = "o1" then { e with status := "shipped" }
                    else e)) ∧
    (updateProductPrice sampleDB "P1" 99).orders = sampleDB.orders :=
  ⟨updateOrderStatus_frame_and_snapshot.1 deliveredDB "o1" "shipped"
    { id := "o1", orderNumber := "ORD-1-0001", customer := "C1",
      products := [{ product := "P1", quantity := 1, price := 10 }],
      totalAmount := 10, status := "shipped", orderDate := 1,
      notes := "gift" }
    { products := [],
      orders := [{ id := "o1", orderNumber := "ORD-1-0001", customer := "C1",
                   products := [{ product := "P1", quantity := 1,
                                  price := 10 }],
                   totalAmount := 10, status := "shipped", orderDate := 1,
                   notes := "gift" }] }
    (by decide),
   updateOrderStatus_frame_and_snapshot.2 sampleDB "P1" 99⟩

/-- Deactivating every product does not change what a product lookup
returns, beyond clearing its own active flag. -/
theorem findProductById_deactivate (catalog : List Product) (pid : String) :
    findProductById (catalog.map (fun p => { p with isActive := false })) pid =
      (findProductById catalog pid).map
        (fun p => { p with isActive := false }) := by
  unfold findProductById
  rw [List.find?_map]
  rfl

/-- Item processing reads only product ids and prices, so it is unchanged
when every product's active flag is cleared. -/
theorem processItems_deactivate (catalog : List Product) :
    ∀ (items : List ReqItem) (acc : List OrderItem) (total : Int),
    processItems (catalog.map (fun p => { p with isActive := false }))
        items acc total =
      processItems catalog items acc total := by
  intro items
  induction items with
  | nil => intro acc total; rfl
  | cons item rest ih =>
    intro acc total
    unfold processItems
    by_cases hval : item.productId = "" ∨ item.quantity = 0
    · rw [if_pos hval, if_pos hval]
    · rw [if_neg hval, if_neg hval]
      cases hf : findProductById catalog item.productId with
      | none =>
        have h2 : findProductById
            (catalog.map (fun p => { p with isActive := false }))
            item.productId = none := by
          rw [findProductById_deactivate, hf]; rfl
        simp only [hf, h2]
      | some p =>
        have h2 : findProductById
            (catalog.map (fun p => { p with isActive := false }))
            item.productId = some { p with isActive := false } := by
          rw [findProductById_deactivate, hf]; rfl
        simp only [hf, h2]
        exact ih _ _

/-- The pre-save hook only reads the order count, which deactivation does
not touch. -/
theorem applyOrderNumberHook_deactivate (db : DB) (o : Order) (now : Nat) :
    applyOrderNumberHook (deactivateAllProducts db) o now =
      applyOrderNumberHook db o now := rfl

/-- Inserting into the deactivated store inserts into the original store
and deactivates the resulting catalog. -/
theorem insertOrder_deactivate (db : DB) (o2 : Order) :
    insertOrder (deactivateAllProducts db) o2 =
      (insertOrder db o2).map (fun r => (r.1, deactivateAllProducts r.2)) := by
  unfold insertOrder deactivateAllProducts
  dsimp only
  by_cases hdup : db.orders.any (fun e => e.orderNumber = o2.orderNumber) = true
  · rw [if_pos hdup, if_pos hdup]; rfl
  · rw [if_neg hdup, if_neg hdup]; rfl

/-- Saving into the deactivated store saves into the original store and
deactivates the resulting catalog. -/
theorem saveOrder_deactivate (db : DB) (o : Order) (now : Nat) :
    saveOrder (deactivateAllProducts db) o now =
      (saveOrder db o now).map (fun r => (r.1, deactivateAllProducts r.2)) := by
  unfold saveOrder
  rw [applyOrderNumberHook_deactivate, insertOrder_deactivate]

/-- Shape-valid, fully resolvable item lists process successfully. -/
theorem processItems_ok_of_resolvable (catalog : List Product) :
    ∀ (items : List ReqItem) (acc : List OrderItem) (total : Int),
    (∀ it ∈ items, (it.productId ≠ "" ∧ it.quantity ≠ 0) ∧
        (findProductById catalog it.productId).isSome = true) →
    ∃ ops tot, processItems catalog items acc total = Except.ok (ops, tot) := by
  intro items
  induction items with
  | nil => intro acc total _; exact ⟨acc, total, rfl⟩
  | cons item rest ih =>
    intro acc total hres
    obtain ⟨⟨hpid, hqty⟩, hsome⟩ := hres item (List.mem_cons_self item rest)
    have hval : ¬(item.productId = "" ∨ item.quantity = 0) := by
      push_neg; exact ⟨hpid, hqty⟩
    cases hf : findProductById catalog item.productId with
    | none => rw [hf] at hsome; exact absurd hsome (by simp)
    | some p =>
      obtain ⟨ops, tot, hok⟩ := ih
        (acc ++ [{ product := p.id, quantity := item.quantity,
                   price := p.price }])
        (total + p.price * item.quantity)
        (fun it h => hres it (List.mem_cons_of_mem _ h))
      refine ⟨ops, tot, ?_⟩
      unfold processItems
      rw [if_neg hval]
      simp only [hf]
      exact hok

/-- C10: order creation never reads the active flag — clearing `isActive`
on every product changes neither the HTTP outcome nor the stored orders of
any creation request; and any shape-valid request whose items all resolve
(actively sold or not) creates the order, snapshotting each resolved
product's price. -/
theorem createOrder_ignores_isActive :
    (∀ (db : DB) (req : CreateOrderRequest) (now : Nat) (newId : String),
      (createOrder (deactivateAllProducts db) req now newId).1 =
        (createOrder db req now newId).1 ∧
      ((createOrder (deactivateAllProducts db) req now newId).2).orders =
        ((createOrder db req now newId).2).orders) ∧
    (∀ (db : DB) (customer : String) (items : List ReqItem)
       (rnotes : String) (now : Nat) (newId : String),
      customer ≠ "" → items ≠ [] →
      (∀ it ∈ items, (it.productId ≠ "" ∧ it.quantity ≠ 0) ∧
          (findProductById db.products it.productId).isSome = true) →
      db.orders.any (fun e => e.orderNumber =
          generateOrderNumber now db.orders.length) = false →
      ∃ o db2, createOrder db
          { customer := customer, products := some items, notes := rnotes }
          now newId = (ApiResult.ok 201 o, db2)) := by
  constructor
  · intro db req now newId
    obtain ⟨customer, oproducts, rnotes⟩ := req
    cases oproducts with
    | none => exact ⟨rfl, rfl⟩
    | some items =>
      simp only [createOrder]
      by_cases hshape : customer = "" ∨ items = []
      · rw [if_pos hshape, if_pos hshape]
        exact ⟨rfl, rfl⟩
      · rw [if_neg hshape, if_neg hshape]
        have hpd : ∀ (acc : List OrderItem) (total : Int),
            processItems (deactivateAllProducts db).products items acc total =
              processItems db.products items acc total :=
          fun acc total => processItems_deactivate db.products items acc total
        rw [hpd]
        cases hpi : processItems db.products items [] 0 with
        | error msg =>
          simp only [hpi]
          refine ⟨?_, ?_⟩ <;> first | rfl | trivial
        | ok pair =>
          obtain ⟨ops, tot⟩ := pair
          simp only [hpi]
          rw [saveOrder_deactivate]
          cases hs : saveOrder db
              { id := newId, orderNumber := "", customer := customer,
                products := ops, totalAmount := tot, status := "placed",
                orderDate := now, notes := rnotes } now with
          | error msg => simp only [hs]; exact ⟨rfl, rfl⟩
          | ok pair2 => simp only [hs]; exact ⟨rfl, rfl⟩
  · intro db customer items rnotes now newId hc hne hres hdup
    obtain ⟨ops, tot, hok⟩ :=
      processItems_ok_of_resolvable db.products items [] 0 hres
    have hdup2 : ¬(db.orders.any (fun e => e.orderNumber =
        generateOrderNumber now db.orders.length) = true) := by
      simp [hdup]
    refine ⟨{ id := newId,
              orderNumber := generateOrderNumber now db.orders.length,
              customer := customer, products := ops, totalAmount := tot,
              status := "placed", orderDate := now, notes := rnotes },
            { db with orders := db.orders ++
                [{ id := newId,
                   orderNumber := generateOrderNumber now db.orders.length,
                   customer := customer, products := ops, totalAmount := tot,
                   status := "placed", orderDate := now,
                   notes := rnotes }] }, ?_⟩
    simp only [createOrder]
    rw [if_neg (by push_neg; exact ⟨hc, hne⟩)]
    simp only [hok]
    unfold saveOrder
    rw [applyOrderNumberHook_fresh db _ now rfl]
    unfold insertOrder
    dsimp only
    rw [if_neg hdup2]

/-- Witness for C10: an order on the deactivated product `P9` is created. -/
theorem createOrder_ignores_isActive_witness :
    ∃ o db2, createOrder inactiveDB
        { customer := "C1",
          products := some [{ productId := "P9", quantity := 2 }],
          notes := "" }
        3 "o1" = (ApiResult.ok 201 o, db2) :=
  createOrder_ignores_isActive.2 inactiveDB "C1"
    [{ productId := "P9", quantity := 2 }] "" 3 "o1"
    (by decide) (by decide) (by decide) (by decide)

end Rugas
